import Mathlib

/-!
Shallow embedding of `drivers/pci/controller/dwc/pcie-ls1024a.c` (LS1024A
DesignWare PCIe controller glue driver) and proofs about it.

Modelling conventions:
* 32-bit hardware registers hold `Nat` values; C bitwise operations map to
  `Nat.land`/`Nat.lor`/`Nat.xor`, and the C complement `~m` on an
  `unsigned int` is modelled as `U32_MAX ^^^ m` (identical on values below
  `2 ^ 32`, which is every value a 32-bit register can hold).
* The shared syscon register bank (`pcie->app_regs`) is a function
  `Regs = Nat → Nat` from register offset to current value; `regmap_read`,
  `regmap_write` and `regmap_write_bits` are modelled on it directly.
* Calls into external kernel services that can fail (`reset_control_*`,
  `phy_*`, allocation, property lookup, ...) take their outcome from an
  explicit environment record, so the driver's control flow can be followed
  for every combination of outcomes.
* Functions with externally visible effects return an event trace
  (register acknowledge writes, virtual-IRQ invocations, PHY calls) in the
  order the C code performs them.
-/

namespace LS1024A

/-- Bit n, the C `BIT(n)` macro. -/
def BIT (n : Nat) : Nat := 2 ^ n

/-- All-ones 32-bit word; `U32_MAX ^^^ m` models the C complement `~m` on
`unsigned int`. -/
def U32_MAX : Nat := 0xFFFFFFFF

/-- Per-port device/link configuration register offset, C macro
`PCIEx_CFGx(port, reg)`. -/
def PCIEx_CFGx (port reg : Nat) : Nat := port * 0x20 + reg * 0x4

/-- Per-port link status register offset, C macro `PCIEx_STSx(port, reg)`. -/
def PCIEx_STSx (port reg : Nat) : Nat := 0x40 + port * 0xc + reg * 0x4

/-- Per-port STS3 register offset, C macro `PCIEx_STS3(port)`. -/
def PCIEx_STS3 (port : Nat) : Nat := 0x58 + port * 0x4

/-- Per-port interrupt status register offset, C macro
`PCIEx_INTR_STS(port)`. -/
def PCIEx_INTR_STS (port : Nat) : Nat := 0x100 + port * 0x10

/-- Per-port interrupt enable register offset, C macro
`PCIEx_INTR_EN(port)`. -/
def PCIEx_INTR_EN (port : Nat) : Nat := 0x104 + port * 0x10

/-- Device-type field mask in CFG0, C `CFG0_DEV_TYPE_MASK`. -/
def CFG0_DEV_TYPE_MASK : Nat := 0xF

/-- Root-complex device type, C `CFG0_DEV_TYPE_RC`. -/
def CFG0_DEV_TYPE_RC : Nat := 0x4

/-- CFG5 link-down-triggers-reset bit, C `CFG5_LINK_DOWN_RST`. -/
def CFG5_LINK_DOWN_RST : Nat := BIT 9

/-- CFG5 app-ready-for-L23 bit, C `CFG5_APP_RDY_L23`. -/
def CFG5_APP_RDY_L23 : Nat := BIT 2

/-- CFG5 LTSSM enable bit, C `CFG5_LTSSM_EN`. -/
def CFG5_LTSSM_EN : Nat := BIT 1

/-- CFG5 app-init-reset bit, C `CFG5_APP_INIT_RST`. -/
def CFG5_APP_INIT_RST : Nat := BIT 0

/-- STS0 data-link-layer link-up bit, C `STS0_RDLH_LINK_UP`. -/
def STS0_RDLH_LINK_UP : Nat := BIT 16

/-- STS0 PHY link-up bit, C `STS0_XMLH_LINK_UP`. -/
def STS0_XMLH_LINK_UP : Nat := BIT 15

/-- Interrupt-register MSI bit, C `PCIE_INTR_MSI`. -/
def PCIE_INTR_MSI : Nat := BIT 12

/-- Interrupt-register INTD assert bit, C `PCIE_INTR_INTD_ASSERT`. -/
def PCIE_INTR_INTD_ASSERT : Nat := BIT 6

/-- Interrupt-register INTC assert bit, C `PCIE_INTR_INTC_ASSERT`. -/
def PCIE_INTR_INTC_ASSERT : Nat := BIT 4

/-- Interrupt-register INTB assert bit, C `PCIE_INTR_INTB_ASSERT`. -/
def PCIE_INTR_INTB_ASSERT : Nat := BIT 2

/-- Interrupt-register INTA assert bit, C `PCIE_INTR_INTA_ASSERT`. -/
def PCIE_INTR_INTA_ASSERT : Nat := BIT 0

/-- IRQ-domain slot of INTA, C `LS1024A_PCIE_INTC_INTA`. -/
def LS1024A_PCIE_INTC_INTA : Nat := 0

/-- IRQ-domain slot of INTB, C `LS1024A_PCIE_INTC_INTB`. -/
def LS1024A_PCIE_INTC_INTB : Nat := 2

/-- IRQ-domain slot of INTC, C `LS1024A_PCIE_INTC_INTC`. -/
def LS1024A_PCIE_INTC_INTC : Nat := 4

/-- IRQ-domain slot of INTD, C `LS1024A_PCIE_INTC_INTD`. -/
def LS1024A_PCIE_INTC_INTD : Nat := 6

/-- IRQ-domain slot of the MSI aggregate, C `LS1024A_PCIE_INTC_MSI`. -/
def LS1024A_PCIE_INTC_MSI : Nat := 12

/-- Number of slots in the per-port IRQ domain, C
`LS1024A_PCIE_INTC_NUM_INTS`. -/
def LS1024A_PCIE_INTC_NUM_INTS : Nat := 13

/-- The shared syscon register bank, offset → current value. -/
abbrev Regs := Nat → Nat

/-- `regmap_read(map, reg, &val)`: read the current value at `reg`. -/
def regmap_read (regs : Regs) (reg : Nat) : Nat := regs reg

/-- `regmap_write(map, reg, val)`: store `val` at `reg`. -/
def regmap_write (regs : Regs) (reg val : Nat) : Regs :=
  fun r => if r = reg then val else regs r

/-- `regmap_write_bits(map, reg, mask, val)`: atomically replace the bits
selected by `mask` with the corresponding bits of `val`. -/
def regmap_write_bits (regs : Regs) (reg mask val : Nat) : Regs :=
  regmap_write regs reg
    ((regmap_read regs reg &&& (U32_MAX ^^^ mask)) ||| (val &&& mask))

/-- `ls1024a_pcie_link_up`: read PCIEx_STS0 of the port and report 1 when
the RDLH (data-link-layer) link-up bit is set, 0 otherwise. The `dev_dbg`
call on the no-link path has no observable effect and is not modelled. -/
def ls1024a_pcie_link_up (port : Nat) (regs : Regs) : Nat :=
  let reg := PCIEx_STSx port 0
  let val := regmap_read regs reg
  if val &&& STS0_RDLH_LINK_UP = STS0_RDLH_LINK_UP then 1 else 0

/-- `ls1024a_pcie_establish_link`. The two `dw_pcie_link_up(pci)` calls
read live hardware state that can change between the calls, so their
results are the oracle parameters `link1` and `link2`; `waitOk` is the
oracle for `dw_pcie_wait_for_link` (which only polls and, on timeout,
logs `dev_err` — no register effect either way). Returns the final
register bank together with the list of `regmap_write` calls
`(offset, value)` in program order. -/
def ls1024a_pcie_establish_link (port : Nat) (link1 link2 waitOk : Bool)
    (regs : Regs) : Regs × List (Nat × Nat) :=
  let step1 :=
    if !link1 then
      /- Disable LTSSM state machine to enable configuration -/
      let reg := PCIEx_CFGx port 5
      let val := regmap_read regs reg &&& (U32_MAX ^^^ CFG5_LTSSM_EN)
      (regmap_write regs reg val, [(reg, val)])
    else (regs, [])
  let regs1 := step1.1
  /- Set the device to root complex mode -/
  let reg0 := PCIEx_CFGx port 0
  let val0 := (regmap_read regs1 reg0 &&& (U32_MAX ^^^ CFG0_DEV_TYPE_MASK))
      ||| CFG0_DEV_TYPE_RC
  let regs2 := regmap_write regs1 reg0 val0
  let writes2 := step1.2 ++ [(reg0, val0)]
  let step3 :=
    if !link2 then
      /- Configuration done. Start LTSSM -/
      let reg := PCIEx_CFGx port 5
      let val := regmap_read regs2 reg ||| (CFG5_LTSSM_EN ||| CFG5_APP_INIT_RST)
      (regmap_write regs2 reg val, writes2 ++ [(reg, val)])
    else (regs2, writes2)
  /- dw_pcie_wait_for_link: poll only; on timeout log and fall through -/
  let _ := waitOk
  step3

/-- `ls1024a_pcie_start_link`: run `ls1024a_pcie_establish_link` and
return 0 unconditionally. -/
def ls1024a_pcie_start_link (port : Nat) (link1 link2 waitOk : Bool)
    (regs : Regs) : (Regs × List (Nat × Nat)) × Int :=
  (ls1024a_pcie_establish_link port link1 link2 waitOk regs, 0)

/-- `ls1024a_pcie_mask_irq`: clear bit `BIT(hwirq)` in the port's
interrupt-enable register via `regmap_write_bits`. -/
def ls1024a_pcie_mask_irq (port hwirq : Nat) (regs : Regs) : Regs :=
  regmap_write_bits regs (PCIEx_INTR_EN port) (BIT hwirq) 0

/-- `ls1024a_pcie_unmask_irq`: set bit `BIT(hwirq)` in the port's
interrupt-enable register via `regmap_write_bits`. -/
def ls1024a_pcie_unmask_irq (port hwirq : Nat) (regs : Regs) : Regs :=
  regmap_write_bits regs (PCIEx_INTR_EN port) (BIT hwirq) (BIT hwirq)

/-- Observable events of the interrupt dispatch routine: the acknowledge
`regmap_write` of the status snapshot, and `generic_handle_irq` on the
virtual IRQ mapped at a domain slot. -/
inductive HEvent where
  | ackWrite (reg val : Nat)
  | handleIrq (slot : Nat)
deriving DecidableEq

/-- The `irqreturn_t` values the handler can produce. -/
inductive IrqReturn where
  | IRQ_NONE
  | IRQ_HANDLED
deriving DecidableEq

/-- `irq_find_mapping(domain, slot)`: the virtual IRQ number mapped at a
slot of the port's linear IRQ domain; 0 means no mapping. -/
def irq_find_mapping (mapping : Nat → Nat) (slot : Nat) : Nat := mapping slot

/-- The `virq = irq_find_mapping(...); if (virq) generic_handle_irq(virq);`
idiom of the dispatch routine: invoke the slot's virtual IRQ when mapped,
do nothing otherwise. -/
def handle_mapped (mapping : Nat → Nat) (slot : Nat) : List HEvent :=
  let virq := irq_find_mapping mapping slot
  if virq ≠ 0 then [HEvent.handleIrq slot] else []

/-- `ls1024a_pcie_intc_handler`. `config_pci_msi` is the compile-time
`IS_ENABLED(CONFIG_PCI_MSI)` value; `BUG_ON` firing (MSI status bit seen
while CONFIG_PCI_MSI is disabled) is modelled as `none`. Otherwise the
result is the event trace in program order — the acknowledge write of the
status snapshot first, then the dispatched virtual IRQs — together with
the `irqreturn_t` result, which the C code fixes at `IRQ_HANDLED`. -/
def ls1024a_pcie_intc_handler (config_pci_msi : Bool) (port : Nat)
    (mapping : Nat → Nat) (regs : Regs) : Option (List HEvent × IrqReturn) :=
  let intx_mask := PCIE_INTR_INTA_ASSERT ||| PCIE_INTR_INTB_ASSERT |||
      PCIE_INTR_INTC_ASSERT ||| PCIE_INTR_INTD_ASSERT
  let reg := PCIEx_INTR_STS port
  let status := regmap_read regs reg
  /- Acknowledge interrupts -/
  let ack := [HEvent.ackWrite reg status]
  if status &&& PCIE_INTR_MSI ≠ 0 ∧ config_pci_msi = false then
    none
  else
    let evMsi :=
      if status &&& PCIE_INTR_MSI ≠ 0 then
        handle_mapped mapping LS1024A_PCIE_INTC_MSI
      else []
    let evIntx :=
      if status &&& intx_mask ≠ 0 then
        (if status &&& PCIE_INTR_INTA_ASSERT ≠ 0 then
          handle_mapped mapping LS1024A_PCIE_INTC_INTA else []) ++
        (if status &&& PCIE_INTR_INTB_ASSERT ≠ 0 then
          handle_mapped mapping LS1024A_PCIE_INTC_INTB else []) ++
        (if status &&& PCIE_INTR_INTC_ASSERT ≠ 0 then
          handle_mapped mapping LS1024A_PCIE_INTC_INTC else []) ++
        (if status &&& PCIE_INTR_INTD_ASSERT ≠ 0 then
          handle_mapped mapping LS1024A_PCIE_INTC_INTD else [])
      else []
    some (ack ++ evMsi ++ evIntx, IrqReturn.IRQ_HANDLED)

/-- The three reset domains held by a port context. -/
inductive ResetDomain where
  | axi
  | power
  | regs
deriving DecidableEq

/-- Which reset domains are currently asserted (held in reset). -/
structure ResetState where
  axi_asserted : Bool
  power_asserted : Bool
  regs_asserted : Bool
deriving DecidableEq

/-- Outcomes of the external `reset_control_assert` /
`reset_control_deassert` services per domain: 0 is success, any other
value is the error code returned. -/
structure ResetEnv where
  assert_res : ResetDomain → Int
  deassert_res : ResetDomain → Int

/-- `reset_control_assert`: on success the domain becomes asserted; on
failure the state is unchanged and the error is returned. -/
def reset_control_assert (env : ResetEnv) (d : ResetDomain)
    (st : ResetState) : Int × ResetState :=
  if env.assert_res d ≠ 0 then (env.assert_res d, st)
  else match d with
    | .axi => (0, { st with axi_asserted := true })
    | .power => (0, { st with power_asserted := true })
    | .regs => (0, { st with regs_asserted := true })

/-- `reset_control_deassert`: on success the domain is released; on
failure the state is unchanged and the error is returned. -/
def reset_control_deassert (env : ResetEnv) (d : ResetDomain)
    (st : ResetState) : Int × ResetState :=
  if env.deassert_res d ≠ 0 then (env.deassert_res d, st)
  else match d with
    | .axi => (0, { st with axi_asserted := false })
    | .power => (0, { st with power_asserted := false })
    | .regs => (0, { st with regs_asserted := false })

/-- `ls1024a_reset_assert`: assert regs → power → axi, stopping at the
first failure and returning its error code. -/
def ls1024a_reset_assert (env : ResetEnv) (st : ResetState) :
    Int × ResetState :=
  let s1 := reset_control_assert env .regs st
  if s1.1 ≠ 0 then (s1.1, s1.2)
  else
    let s2 := reset_control_assert env .power s1.2
    if s2.1 ≠ 0 then (s2.1, s2.2)
    else
      let s3 := reset_control_assert env .axi s2.2
      if s3.1 ≠ 0 then (s3.1, s3.2)
      else (0, s3.2)

/-- `ls1024a_reset_deassert`: deassert axi → power → regs; on the first
failure, log, call `ls1024a_reset_assert` (its own result is discarded)
and return the deassert error. -/
def ls1024a_reset_deassert (env : ResetEnv) (st : ResetState) :
    Int × ResetState :=
  let s1 := reset_control_deassert env .axi st
  if s1.1 ≠ 0 then (s1.1, (ls1024a_reset_assert env s1.2).2)
  else
    let s2 := reset_control_deassert env .power s1.2
    if s2.1 ≠ 0 then (s2.1, (ls1024a_reset_assert env s2.2).2)
    else
      let s3 := reset_control_deassert env .regs s2.2
      if s3.1 ≠ 0 then (s3.1, (ls1024a_reset_assert env s3.2).2)
      else (0, s3.2)

/-- Calls into the external PHY subsystem, in program order. -/
inductive PhyEvent where
  | phy_init_call
  | phy_set_mode_call
  | phy_power_on_call
  | phy_exit_call
  | phy_power_off_call
deriving DecidableEq

/-- Outcomes of the fallible PHY services: 0 is success, any other value
is the error code returned by that call. -/
structure PhyEnv where
  init_res : Int
  set_mode_res : Int
  power_on_res : Int

/-- `ls1024a_pcie_enable_phy`: phy_init → phy_set_mode(PCIE) →
phy_power_on; a failure after `phy_init` succeeded runs `phy_exit` and
returns the failing call's error. Returns the error code (0 on success)
and the PHY calls made, in order. -/
def ls1024a_pcie_enable_phy (env : PhyEnv) : Int × List PhyEvent :=
  let t1 := [PhyEvent.phy_init_call]
  if env.init_res ≠ 0 then (env.init_res, t1)
  else
    let t2 := t1 ++ [PhyEvent.phy_set_mode_call]
    if env.set_mode_res ≠ 0 then
      (env.set_mode_res, t2 ++ [PhyEvent.phy_exit_call])
    else
      let t3 := t2 ++ [PhyEvent.phy_power_on_call]
      if env.power_on_res ≠ 0 then
        (env.power_on_res, t3 ++ [PhyEvent.phy_exit_call])
      else (0, t3)

/-- `ls1024a_pcie_disable_phy`: phy_power_off then phy_exit. -/
def ls1024a_pcie_disable_phy : List PhyEvent :=
  [PhyEvent.phy_power_off_call, PhyEvent.phy_exit_call]

/-- Outcome of `devm_phy_get(dev, "bus")`: deferred probe, no usable PHY
(any other error, folded to NULL by the code), or a usable PHY. -/
inductive PhyGet where
  | deferred
  | absent
  | present
deriving DecidableEq

/-- Linux error number `EPROBE_DEFER`. -/
def EPROBE_DEFER : Int := 517

/-- Linux error number `ENOMEM`. -/
def ENOMEM : Int := 12

/-- Linux error number `EINVAL`. -/
def EINVAL : Int := 22

/-- `ls1024a_pcie_setup_phy`: resolve the "bus" PHY, propagate
-EPROBE_DEFER, treat any other lookup failure as a missing PHY
(-EINVAL), otherwise run `ls1024a_pcie_enable_phy`. -/
def ls1024a_pcie_setup_phy (phy_get : PhyGet) (env : PhyEnv) :
    Int × List PhyEvent :=
  match phy_get with
  | .deferred => (-EPROBE_DEFER, [])
  | .absent => (-EINVAL, [])
  | .present => ls1024a_pcie_enable_phy env

/-- Outcomes of every fallible step `ls1024a_pcie_probe` and its helpers
perform, in probe order. An `Option Int` field is `some e` when the
service returned the `IS_ERR` pointer carrying error `e`; an `Int` field
is the call's return code, 0 meaning success. -/
structure ProbeEnv where
  kzalloc_pcie_ok : Bool
  kzalloc_pci_ok : Bool
  port_prop_res : Int
  port_value : Nat
  syscon_err : Option Int
  clk_get_err : Option Int
  reset_get_axi_err : Option Int
  reset_get_power_err : Option Int
  reset_get_regs_err : Option Int
  reset_env : ResetEnv
  clk_enable_res : Int
  phy_get : PhyGet
  phy_env : PhyEnv
  dbi_err : Option Int
  add_port_res : Int

/-- `ls1024a_reset_setup`: acquire the "axi", "power" and "regs" reset
controls, failing on the first unavailable one, then run
`ls1024a_reset_assert`. -/
def ls1024a_reset_setup (env : ProbeEnv) (st : ResetState) :
    Int × ResetState :=
  match env.reset_get_axi_err with
  | some e => (e, st)
  | none =>
    match env.reset_get_power_err with
    | some e => (e, st)
    | none =>
      match env.reset_get_regs_err with
      | some e => (e, st)
      | none => ls1024a_reset_assert env.reset_env st

/-- `ls1024a_pcie_probe`, following the C control flow including the
`goto` unwind chain. The result is the probe return code, the PHY calls
made (in order, including unwind calls), and the final reset-domain
state. Clock enable/disable and the devm-managed acquisitions have no
further observable state here and contribute only their return codes. -/
def ls1024a_pcie_probe (env : ProbeEnv) (st : ResetState) :
    Int × List PhyEvent × ResetState :=
  if !env.kzalloc_pcie_ok then (-ENOMEM, [], st)
  else if !env.kzalloc_pci_ok then (-ENOMEM, [], st)
  else if env.port_prop_res ≠ 0 ∨ env.port_value > 1 then (-EINVAL, [], st)
  else
    match env.syscon_err with
    | some e => (e, [], st)
    | none =>
      match env.clk_get_err with
      | some e => (e, [], st)
      | none =>
        let rs := ls1024a_reset_setup env st
        if rs.1 ≠ 0 then (rs.1, [], rs.2)
        else if env.clk_enable_res ≠ 0 then (env.clk_enable_res, [], rs.2)
        else
          let ph := ls1024a_pcie_setup_phy env.phy_get env.phy_env
          if ph.1 ≠ 0 then (ph.1, ph.2, rs.2)
          else
            let de := ls1024a_reset_deassert env.reset_env rs.2
            if de.1 ≠ 0 then
              (de.1, ph.2 ++ ls1024a_pcie_disable_phy, de.2)
            else
              match env.dbi_err with
              | some e =>
                (e, ph.2 ++ ls1024a_pcie_disable_phy,
                  (ls1024a_reset_assert env.reset_env de.2).2)
              | none =>
                if env.add_port_res ≠ 0 then
                  (env.add_port_res, ph.2 ++ ls1024a_pcie_disable_phy,
                    (ls1024a_reset_assert env.reset_env de.2).2)
                else (0, ph.2, de.2)

/-! Helper lemmas about 32-bit register arithmetic. -/

/-- Testing a word against a single-bit mask with `&&&` agrees with
`Nat.testBit`. -/
theorem land_two_pow_eq_iff (val i : Nat) :
    val &&& 2 ^ i = 2 ^ i ↔ val.testBit i = true := by
  rw [Nat.and_two_pow]
  cases h : val.testBit i <;>
    simp [(Nat.pos_pow_of_pos i (by norm_num : 0 < 2)).ne]

/-- C8: the register offsets computed by the driver's offset macros are
exactly `P*0x20 + reg*0x4` (device/link config), `0x40 + P*0xC + reg*0x4`
(link status), `0x100 + P*0x10` (interrupt status) and `0x104 + P*0x10`
(interrupt enable); the device-type field is bits [3:0] of CFG0 with
root-complex value 0x4, app-init-reset is bit 0 and LTSSM enable bit 1 of
CFG5, the INTA/B/C/D assert bits are 0/2/4/6 and MSI is bit 12 of the
interrupt status/enable registers. -/
theorem claim_C8 (port reg : Nat) :
    PCIEx_CFGx port reg = port * 0x20 + reg * 0x4 ∧
    PCIEx_STSx port reg = 0x40 + port * 0xc + reg * 0x4 ∧
    PCIEx_INTR_STS port = 0x100 + port * 0x10 ∧
    PCIEx_INTR_EN port = 0x104 + port * 0x10 ∧
    CFG0_DEV_TYPE_MASK = 2 ^ 4 - 1 ∧
    CFG0_DEV_TYPE_RC = 0x4 ∧
    CFG5_APP_INIT_RST = 2 ^ 0 ∧
    CFG5_LTSSM_EN = 2 ^ 1 ∧
    PCIE_INTR_INTA_ASSERT = 2 ^ 0 ∧
    PCIE_INTR_INTB_ASSERT = 2 ^ 2 ∧
    PCIE_INTR_INTC_ASSERT = 2 ^ 4 ∧
    PCIE_INTR_INTD_ASSERT = 2 ^ 6 ∧
    PCIE_INTR_MSI = 2 ^ 12 :=
  ⟨rfl, rfl, rfl, rfl, by decide, rfl, rfl, rfl, rfl, rfl, rfl, rfl, rfl⟩

/-- C3: `ls1024a_pcie_link_up` is determined by bit 16 (RDLH link-up) of
the port's STS0 register alone — it equals `if testBit .. 16 then 1 else
0` — and in particular returns 1 exactly when that bit reads 1. The model
takes the register bank and returns a value without writing. -/
theorem claim_C3 (port : Nat) (regs : Regs) :
    ls1024a_pcie_link_up port regs =
      (if Nat.testBit (regs (PCIEx_STSx port 0)) 16 then 1 else 0) ∧
    (ls1024a_pcie_link_up port regs = 1 ↔
      Nat.testBit (regs (PCIEx_STSx port 0)) 16 = true) := by
  have h := land_two_pow_eq_iff (regs (PCIEx_STSx port 0)) 16
  simp only [ls1024a_pcie_link_up, regmap_read, STS0_RDLH_LINK_UP, BIT, h]
  refine ⟨trivial, ?_⟩
  split <;> simp_all

/-- C9: `ls1024a_pcie_start_link` returns 0 for every port, every
link-up oracle outcome, every wait-for-link outcome (timeout included)
and every register state: a link-training timeout is only logged and
never surfaces through the return value. -/
theorem claim_C9 (port : Nat) (link1 link2 waitOk : Bool) (regs : Regs) :
    (ls1024a_pcie_start_link port link1 link2 waitOk regs).2 = 0 := rfl

/-- C1 (amended): on a zero status snapshot the dispatch routine invokes
no sub-handler and its acknowledge write writes back 0 (a no-op under
write-1-to-clear), but it returns `IRQ_HANDLED`, not `IRQ_NONE`: the C
handler ends in an unconditional `return IRQ_HANDLED`. -/
theorem claim_C1 (config : Bool) (port : Nat) (mapping : Nat → Nat)
    (regs : Regs) (h : regs (PCIEx_INTR_STS port) = 0) :
    ls1024a_pcie_intc_handler config port mapping regs =
      some ([HEvent.ackWrite (PCIEx_INTR_STS port) 0],
        IrqReturn.IRQ_HANDLED) := by
  simp only [ls1024a_pcie_intc_handler, regmap_read, h]
  simp

/-- Witness for C1 (amended): concrete zero-status dispatch. -/
theorem claim_C1_witness :
    (fun _ : Nat => 0) (PCIEx_INTR_STS 1) = 0 ∧
    ls1024a_pcie_intc_handler false 1 (fun _ => 3) (fun _ => 0) =
      some ([HEvent.ackWrite (PCIEx_INTR_STS 1) 0],
        IrqReturn.IRQ_HANDLED) :=
  ⟨rfl, claim_C1 false 1 (fun _ => 3) (fun _ => 0) rfl⟩

/-- Counterexample to C1 as stated: at port 0 with a zero status register
the handler result is `IRQ_HANDLED`, which differs from the `IRQ_NONE`
("unhandled") the claim requires. -/
theorem claim_C1_counterexample :
    ls1024a_pcie_intc_handler true 0 (fun _ => 0) (fun _ => 0) =
      some ([HEvent.ackWrite (PCIEx_INTR_STS 0) 0],
        IrqReturn.IRQ_HANDLED) ∧
    IrqReturn.IRQ_HANDLED ≠ IrqReturn.IRQ_NONE := by
  exact ⟨by decide, by decide⟩

/-- C2: on a snapshot whose only set bits are INTA_ASSERT (bit 0) and
INTC_ASSERT (bit 4), the dispatch trace is exactly one acknowledge write
of the snapshot value to the port's status register, followed by the
virtual IRQ of slot 0 (when mapped) and then the virtual IRQ of slot 4
(when mapped) — so slots 2, 6 and the MSI slot are not invoked, and the
single acknowledge write precedes every sub-dispatch. -/
theorem claim_C2 (config : Bool) (port : Nat) (mapping : Nat → Nat)
    (regs : Regs)
    (h : regs (PCIEx_INTR_STS port) =
      PCIE_INTR_INTA_ASSERT ||| PCIE_INTR_INTC_ASSERT) :
    ls1024a_pcie_intc_handler config port mapping regs =
      some (HEvent.ackWrite (PCIEx_INTR_STS port)
          (PCIE_INTR_INTA_ASSERT ||| PCIE_INTR_INTC_ASSERT) ::
        ((if mapping LS1024A_PCIE_INTC_INTA ≠ 0
          then [HEvent.handleIrq LS1024A_PCIE_INTC_INTA] else []) ++
         (if mapping LS1024A_PCIE_INTC_INTC ≠ 0
          then [HEvent.handleIrq LS1024A_PCIE_INTC_INTC] else [])),
        IrqReturn.IRQ_HANDLED) := by
  simp only [ls1024a_pcie_intc_handler, regmap_read, h, handle_mapped,
    irq_find_mapping,
    show (PCIE_INTR_INTA_ASSERT ||| PCIE_INTR_INTC_ASSERT) &&&
      PCIE_INTR_MSI = 0 from by decide,
    show (PCIE_INTR_INTA_ASSERT ||| PCIE_INTR_INTC_ASSERT) &&&
      (PCIE_INTR_INTA_ASSERT ||| PCIE_INTR_INTB_ASSERT |||
        PCIE_INTR_INTC_ASSERT ||| PCIE_INTR_INTD_ASSERT) = 17 from by decide,
    show (PCIE_INTR_INTA_ASSERT ||| PCIE_INTR_INTC_ASSERT) &&&
      PCIE_INTR_INTA_ASSERT = 1 from by decide,
    show (PCIE_INTR_INTA_ASSERT ||| PCIE_INTR_INTC_ASSERT) &&&
      PCIE_INTR_INTB_ASSERT = 0 from by decide,
    show (PCIE_INTR_INTA_ASSERT ||| PCIE_INTR_INTC_ASSERT) &&&
      PCIE_INTR_INTC_ASSERT = 16 from by decide,
    show (PCIE_INTR_INTA_ASSERT ||| PCIE_INTR_INTC_ASSERT) &&&
      PCIE_INTR_INTD_ASSERT = 0 from by decide]
  simp

/-- Witness for C2: port 0, slot 0 mapped, slot 4 unmapped. -/
theorem claim_C2_witness :
    (fun _ : Nat => 17) (PCIEx_INTR_STS 0) =
      PCIE_INTR_INTA_ASSERT ||| PCIE_INTR_INTC_ASSERT ∧
    ls1024a_pcie_intc_handler true 0 (fun s => if s = 0 then 5 else 0)
        (fun _ => 17) =
      some (HEvent.ackWrite (PCIEx_INTR_STS 0)
          (PCIE_INTR_INTA_ASSERT ||| PCIE_INTR_INTC_ASSERT) ::
        (((if (fun s => if s = 0 then 5 else 0) LS1024A_PCIE_INTC_INTA ≠ 0
          then [HEvent.handleIrq LS1024A_PCIE_INTC_INTA] else []) ++
         (if (fun s => if s = 0 then 5 else 0) LS1024A_PCIE_INTC_INTC ≠ 0
          then [HEvent.handleIrq LS1024A_PCIE_INTC_INTC] else []))),
        IrqReturn.IRQ_HANDLED) :=
  ⟨by decide,
    claim_C2 true 0 (fun s => if s = 0 then 5 else 0) (fun _ => 17)
      (by decide)⟩

/-- C10: when bit 12 (MSI) of the status snapshot is set, running the
dispatch routine with CONFIG_PCI_MSI disabled hits `BUG_ON` (modelled as
`none`), while with CONFIG_PCI_MSI enabled the `BUG_ON` branch is not
taken and the handler completes normally. -/
theorem claim_C10 (port : Nat) (mapping : Nat → Nat) (regs : Regs)
    (h : Nat.testBit (regs (PCIEx_INTR_STS port)) 12 = true) :
    ls1024a_pcie_intc_handler false port mapping regs = none ∧
    (ls1024a_pcie_intc_handler true port mapping regs).isSome = true := by
  have hm : regs (PCIEx_INTR_STS port) &&& PCIE_INTR_MSI ≠ 0 := by
    rw [PCIE_INTR_MSI, BIT, Nat.and_two_pow, h]
    simp
  constructor
  · simp only [ls1024a_pcie_intc_handler, regmap_read]
    split
    · rfl
    · rename_i hcond
      exact absurd ⟨hm, by trivial⟩ hcond
  · simp only [ls1024a_pcie_intc_handler, regmap_read]
    split
    · rename_i hcond
      exact Bool.noConfusion hcond.2
    · rfl

/-- Witness for C10: status snapshot 0x1000 (MSI bit only). -/
theorem claim_C10_witness :
    Nat.testBit ((fun _ : Nat => 0x1000) (PCIEx_INTR_STS 0)) 12 = true ∧
    (ls1024a_pcie_intc_handler false 0 (fun _ => 0) (fun _ => 0x1000) =
        none ∧
      (ls1024a_pcie_intc_handler true 0 (fun _ => 0)
          (fun _ => 0x1000)).isSome = true) :=
  ⟨by decide, claim_C10 0 (fun _ => 0) (fun _ => 0x1000) (by decide)⟩

/-- Writing the device-type field leaves it equal to root complex: for
any prior CFG0 value, the value `ls1024a_pcie_establish_link` writes has
bits [3:0] equal to `CFG0_DEV_TYPE_RC`. -/
theorem dev_type_field_set (x : Nat) :
    ((x &&& (U32_MAX ^^^ CFG0_DEV_TYPE_MASK)) ||| CFG0_DEV_TYPE_RC) &&&
      CFG0_DEV_TYPE_MASK = CFG0_DEV_TYPE_RC := by
  have h1 : U32_MAX = 2 ^ 32 - 1 := by decide
  have h2 : CFG0_DEV_TYPE_MASK = 2 ^ 4 - 1 := by decide
  have h3 : CFG0_DEV_TYPE_RC = 2 ^ 2 := by decide
  rw [h1, h2, h3]
  apply Nat.eq_of_testBit_eq
  intro i
  simp only [Nat.testBit_and, Nat.testBit_or, Nat.testBit_xor,
    Nat.testBit_two_pow_sub_one, Nat.testBit_two_pow]
  by_cases hi4 : i < 4 <;> by_cases hi32 : i < 32 <;>
    by_cases h2i : 2 = i <;> simp_all <;> omega

/-- C4: when both link-up checks inside `ls1024a_pcie_establish_link`
see the link up, the only register write performed is the CFG0
device-type rewrite — CFG5 is never written, so no write clears the
LTSSM-enable bit (bit 1 of CFG5 keeps its prior value) — and the value
written to CFG0 has its device-type field [3:0] equal to root complex
(0x4). This holds for every wait-for-link outcome and register state,
and `ls1024a_pcie_start_link` is establish-link followed by `return 0`. -/
theorem claim_C4 (port : Nat) (waitOk : Bool) (regs : Regs) :
    (ls1024a_pcie_establish_link port true true waitOk regs).2 =
      [(PCIEx_CFGx port 0,
        (regs (PCIEx_CFGx port 0) &&& (U32_MAX ^^^ CFG0_DEV_TYPE_MASK)) |||
          CFG0_DEV_TYPE_RC)] ∧
    (ls1024a_pcie_establish_link port true true waitOk regs).1
        (PCIEx_CFGx port 5) = regs (PCIEx_CFGx port 5) ∧
    Nat.testBit ((ls1024a_pcie_establish_link port true true waitOk regs).1
        (PCIEx_CFGx port 5)) 1 =
      Nat.testBit (regs (PCIEx_CFGx port 5)) 1 ∧
    ((regs (PCIEx_CFGx port 0) &&& (U32_MAX ^^^ CFG0_DEV_TYPE_MASK)) |||
        CFG0_DEV_TYPE_RC) &&& CFG0_DEV_TYPE_MASK = CFG0_DEV_TYPE_RC := by
  have hne : PCIEx_CFGx port 5 ≠ PCIEx_CFGx port 0 := by
    simp only [PCIEx_CFGx]
    omega
  have h2 : (ls1024a_pcie_establish_link port true true waitOk regs).1
      (PCIEx_CFGx port 5) = regs (PCIEx_CFGx port 5) := by
    simp only [ls1024a_pcie_establish_link]
    simp [regmap_write, regmap_read, hne]
  exact ⟨rfl, h2, by rw [h2], dev_type_field_set _⟩

/-- Bit-level effect of the value `regmap_write_bits` computes for a
single-bit mask `BIT slot` with `slot < 32`: bit `slot` becomes the
corresponding bit of `v`, every other bit below 32 keeps the value it had
in `x`, and bits at position 32 and above read 0. -/
theorem write_bits_single_testBit (x v slot i : Nat) (hs : slot < 32) :
    Nat.testBit ((x &&& (U32_MAX ^^^ BIT slot)) ||| (v &&& BIT slot)) i =
      if slot = i then Nat.testBit v i
      else (Nat.testBit x i && decide (i < 32)) := by
  have h1 : U32_MAX = 2 ^ 32 - 1 := by decide
  simp only [BIT, h1, Nat.testBit_or, Nat.testBit_and, Nat.testBit_xor,
    Nat.testBit_two_pow_sub_one, Nat.testBit_two_pow]
  by_cases he : slot = i
  · subst he
    simp [hs]
  · simp [he]

/-- C7: for every slot of the 13-slot IRQ domain and every starting
enable-register value (any 32-bit word), `mask(slot)` followed by
`unmask(slot)` leaves bit `slot` of the port's interrupt-enable register
set to 1 and every other bit of that register unchanged; `mask(slot)`
alone clears only bit `slot` and preserves every other bit; and neither
operation touches any register other than the port's interrupt-enable
register. -/
theorem claim_C7 (port slot i r : Nat) (regs : Regs)
    (hs : slot < LS1024A_PCIE_INTC_NUM_INTS)
    (hv : regs (PCIEx_INTR_EN port) < 2 ^ 32)
    (hi : i ≠ slot) (hr : r ≠ PCIEx_INTR_EN port) :
    Nat.testBit
      (ls1024a_pcie_unmask_irq port slot (ls1024a_pcie_mask_irq port slot regs)
        (PCIEx_INTR_EN port)) slot = true ∧
    Nat.testBit
      (ls1024a_pcie_unmask_irq port slot (ls1024a_pcie_mask_irq port slot regs)
        (PCIEx_INTR_EN port)) i =
      Nat.testBit (regs (PCIEx_INTR_EN port)) i ∧
    Nat.testBit (ls1024a_pcie_mask_irq port slot regs (PCIEx_INTR_EN port)) i =
      Nat.testBit (regs (PCIEx_INTR_EN port)) i ∧
    Nat.testBit (ls1024a_pcie_mask_irq port slot regs (PCIEx_INTR_EN port))
      slot = false ∧
    ls1024a_pcie_unmask_irq port slot (ls1024a_pcie_mask_irq port slot regs) r
      = regs r ∧
    ls1024a_pcie_mask_irq port slot regs r = regs r := by
  have hs32 : slot < 32 := by
    have h13 := hs
    simp only [LS1024A_PCIE_INTC_NUM_INTS] at h13
    omega
  have hmv : ls1024a_pcie_mask_irq port slot regs (PCIEx_INTR_EN port) =
      (regs (PCIEx_INTR_EN port) &&& (U32_MAX ^^^ BIT slot)) |||
        (0 &&& BIT slot) := by
    simp [ls1024a_pcie_mask_irq, regmap_write_bits, regmap_write, regmap_read]
  have huv : ls1024a_pcie_unmask_irq port slot
        (ls1024a_pcie_mask_irq port slot regs) (PCIEx_INTR_EN port) =
      ((ls1024a_pcie_mask_irq port slot regs (PCIEx_INTR_EN port)) &&&
        (U32_MAX ^^^ BIT slot)) ||| (BIT slot &&& BIT slot) := by
    simp [ls1024a_pcie_unmask_irq, regmap_write_bits, regmap_write,
      regmap_read]
  have hmbit : ∀ j, Nat.testBit
      (ls1024a_pcie_mask_irq port slot regs (PCIEx_INTR_EN port)) j =
      (if slot = j then false
       else Nat.testBit (regs (PCIEx_INTR_EN port)) j && decide (j < 32)) := by
    intro j
    rw [hmv, write_bits_single_testBit _ _ _ _ hs32]
    by_cases he : slot = j <;> simp [he]
  have hubit : ∀ j, Nat.testBit
      (ls1024a_pcie_unmask_irq port slot
        (ls1024a_pcie_mask_irq port slot regs) (PCIEx_INTR_EN port)) j =
      (if slot = j then Nat.testBit (BIT slot) j
       else Nat.testBit
          (ls1024a_pcie_mask_irq port slot regs (PCIEx_INTR_EN port)) j &&
         decide (j < 32)) := by
    intro j
    rw [huv, write_bits_single_testBit _ _ _ _ hs32]
  have hhigh : ∀ j, 32 ≤ j →
      Nat.testBit (regs (PCIEx_INTR_EN port)) j = false := by
    intro j hj
    exact Nat.testBit_lt_two_pow
      (lt_of_lt_of_le hv (Nat.pow_le_pow_right (by norm_num) hj))
  refine ⟨?_, ?_, ?_, ?_, ?_, ?_⟩
  · rw [hubit]
    simp [BIT, Nat.testBit_two_pow_self]
  · rw [hubit, hmbit]
    by_cases hi32 : i < 32
    · simp [Ne.symm hi, hi32]
    · simp [Ne.symm hi, hi32, hhigh i (by omega)]
  · rw [hmbit]
    by_cases hi32 : i < 32
    · simp [Ne.symm hi, hi32]
    · simp [Ne.symm hi, hi32, hhigh i (by omega)]
  · rw [hmbit]
    simp
  · simp [ls1024a_pcie_unmask_irq, ls1024a_pcie_mask_irq, regmap_write_bits,
      regmap_write, regmap_read, hr]
  · simp [ls1024a_pcie_mask_irq, regmap_write_bits, regmap_write,
      regmap_read, hr]

/-- Witness for C7: port 0, slot 3, observing bit 7 and the offset 5. -/
theorem claim_C7_witness :
    (3 < LS1024A_PCIE_INTC_NUM_INTS ∧
      (fun _ : Nat => 0x5A5) (PCIEx_INTR_EN 0) < 2 ^ 32 ∧
      (7 : Nat) ≠ 3 ∧ (5 : Nat) ≠ PCIEx_INTR_EN 0) ∧
    (Nat.testBit
      (ls1024a_pcie_unmask_irq 0 3 (ls1024a_pcie_mask_irq 0 3 (fun _ => 0x5A5))
        (PCIEx_INTR_EN 0)) 3 = true ∧
    Nat.testBit
      (ls1024a_pcie_unmask_irq 0 3 (ls1024a_pcie_mask_irq 0 3 (fun _ => 0x5A5))
        (PCIEx_INTR_EN 0)) 7 =
      Nat.testBit ((fun _ : Nat => 0x5A5) (PCIEx_INTR_EN 0)) 7 ∧
    Nat.testBit (ls1024a_pcie_mask_irq 0 3 (fun _ => 0x5A5) (PCIEx_INTR_EN 0))
      7 = Nat.testBit ((fun _ : Nat => 0x5A5) (PCIEx_INTR_EN 0)) 7 ∧
    Nat.testBit (ls1024a_pcie_mask_irq 0 3 (fun _ => 0x5A5) (PCIEx_INTR_EN 0))
      3 = false ∧
    ls1024a_pcie_unmask_irq 0 3 (ls1024a_pcie_mask_irq 0 3 (fun _ => 0x5A5)) 5
      = (fun _ : Nat => 0x5A5) 5 ∧
    ls1024a_pcie_mask_irq 0 3 (fun _ => 0x5A5) 5 =
      (fun _ : Nat => 0x5A5) 5) :=
  ⟨⟨by decide, by decide, by decide, by decide⟩,
    claim_C7 0 3 7 5 (fun _ => 0x5A5) (by decide) (by decide) (by decide)
      (by decide)⟩

/-- When every `reset_control_assert` call succeeds,
`ls1024a_reset_assert` returns 0 and leaves all three domains asserted,
from any starting state. -/
theorem reset_assert_all_ok (env : ResetEnv) (st : ResetState)
    (h : ∀ d, env.assert_res d = 0) :
    ls1024a_reset_assert env st =
      (0, { axi_asserted := true, power_asserted := true,
            regs_asserted := true }) := by
  simp [ls1024a_reset_assert, reset_control_assert, h]

/-- C5: whenever `ls1024a_reset_deassert` fails at any step (at least
one of the AXI, power or regs deasserts returns an error) and the
re-assert operations themselves succeed, the state it leaves behind is
full-assert — all three domains asserted, never a partial release — and
the returned error code is that of the first failing deassert step. -/
theorem claim_C5 (env : ResetEnv) (st : ResetState)
    (hassert : ∀ d, env.assert_res d = 0)
    (hfail : ¬(env.deassert_res .axi = 0 ∧ env.deassert_res .power = 0 ∧
      env.deassert_res .regs = 0)) :
    (ls1024a_reset_deassert env st).2 =
      { axi_asserted := true, power_asserted := true,
        regs_asserted := true } ∧
    (ls1024a_reset_deassert env st).1 =
      (if env.deassert_res .axi ≠ 0 then env.deassert_res .axi
       else if env.deassert_res .power ≠ 0 then env.deassert_res .power
       else env.deassert_res .regs) := by
  have ha : ∀ s, (ls1024a_reset_assert env s).2 =
      { axi_asserted := true, power_asserted := true,
        regs_asserted := true } := by
    intro s
    rw [reset_assert_all_ok env s hassert]
  by_cases h1 : env.deassert_res .axi = 0 <;>
    by_cases h2 : env.deassert_res .power = 0 <;>
      by_cases h3 : env.deassert_res .regs = 0 <;>
        simp_all [ls1024a_reset_deassert, reset_control_deassert]

/-- A concrete reset environment for the C5 witness: asserts succeed,
the power-domain deassert fails with -5 (-EIO). -/
def resetEnvC5 : ResetEnv where
  assert_res := fun _ => 0
  deassert_res := fun d => match d with
    | .power => -5
    | _ => 0

/-- Witness for C5: deassert fails at the power step with -5; the final
state is full-assert and -5 is returned. -/
theorem claim_C5_witness :
    ((∀ d, resetEnvC5.assert_res d = 0) ∧
      ¬(resetEnvC5.deassert_res .axi = 0 ∧
        resetEnvC5.deassert_res .power = 0 ∧
        resetEnvC5.deassert_res .regs = 0)) ∧
    ((ls1024a_reset_deassert resetEnvC5
        { axi_asserted := true, power_asserted := true,
          regs_asserted := true }).2 =
      { axi_asserted := true, power_asserted := true,
        regs_asserted := true } ∧
    (ls1024a_reset_deassert resetEnvC5
        { axi_asserted := true, power_asserted := true,
          regs_asserted := true }).1 =
      (if resetEnvC5.deassert_res .axi ≠ 0 then resetEnvC5.deassert_res .axi
       else if resetEnvC5.deassert_res .power ≠ 0 then
         resetEnvC5.deassert_res .power
       else resetEnvC5.deassert_res .regs)) :=
  ⟨⟨fun d => rfl, by decide⟩,
    claim_C5 resetEnvC5
      { axi_asserted := true, power_asserted := true, regs_asserted := true }
      (fun d => rfl) (by decide)⟩

/-- C6: in a probe run where everything up to the PHY sequence succeeds,
`phy_init` succeeds and `phy_set_mode` fails with error `e`, the PHY
calls made are exactly init → set-mode → exit — so the PHY is exited and
`phy_power_off` is never invoked (power-on never ran) — and the probe
returns exactly `e`, the `phy_set_mode` error code. -/
theorem claim_C6 (env : ProbeEnv) (st : ResetState) (e : Int)
    (h1 : env.kzalloc_pcie_ok = true) (h2 : env.kzalloc_pci_ok = true)
    (h3 : env.port_prop_res = 0) (h4 : env.port_value ≤ 1)
    (h5 : env.syscon_err = none) (h6 : env.clk_get_err = none)
    (h7 : env.reset_get_axi_err = none) (h8 : env.reset_get_power_err = none)
    (h9 : env.reset_get_regs_err = none)
    (h10 : ∀ d, env.reset_env.assert_res d = 0)
    (h11 : env.clk_enable_res = 0)
    (h12 : env.phy_get = PhyGet.present)
    (h13 : env.phy_env.init_res = 0)
    (h14 : env.phy_env.set_mode_res = e) (h15 : e ≠ 0) :
    (ls1024a_pcie_probe env st).1 = e ∧
    (ls1024a_pcie_probe env st).2.1 =
      [PhyEvent.phy_init_call, PhyEvent.phy_set_mode_call,
        PhyEvent.phy_exit_call] ∧
    PhyEvent.phy_power_off_call ∉ (ls1024a_pcie_probe env st).2.1 := by
  have hsetup : ls1024a_reset_setup env st =
      (0, { axi_asserted := true, power_asserted := true,
            regs_asserted := true }) := by
    simp only [ls1024a_reset_setup, h7, h8, h9]
    exact reset_assert_all_ok env.reset_env st h10
  have hphy : ls1024a_pcie_setup_phy env.phy_get env.phy_env =
      (e, [PhyEvent.phy_init_call, PhyEvent.phy_set_mode_call,
        PhyEvent.phy_exit_call]) := by
    rw [h12]
    simp [ls1024a_pcie_setup_phy, ls1024a_pcie_enable_phy, h13, h14, h15]
  have hprobe : ls1024a_pcie_probe env st =
      (e, [PhyEvent.phy_init_call, PhyEvent.phy_set_mode_call,
        PhyEvent.phy_exit_call],
        { axi_asserted := true, power_asserted := true,
          regs_asserted := true }) := by
    simp only [ls1024a_pcie_probe, h1, h2, h3, h5, h6, hsetup, hphy, h11]
    have hport : ¬((0 : Int) ≠ 0 ∨ env.port_value > 1) := by
      push_neg
      exact ⟨rfl, h4⟩
    simp [hport, h15, h4]
  rw [hprobe]
  simp

/-- A concrete probe environment for the C6 witness: everything up to
the PHY sequence succeeds, `phy_set_mode` fails with -5 (-EIO). -/
def probeEnvC6 : ProbeEnv where
  kzalloc_pcie_ok := true
  kzalloc_pci_ok := true
  port_prop_res := 0
  port_value := 1
  syscon_err := none
  clk_get_err := none
  reset_get_axi_err := none
  reset_get_power_err := none
  reset_get_regs_err := none
  reset_env := { assert_res := fun _ => 0, deassert_res := fun _ => 0 }
  clk_enable_res := 0
  phy_get := PhyGet.present
  phy_env := { init_res := 0, set_mode_res := -5, power_on_res := 0 }
  dbi_err := none
  add_port_res := 0

/-- Witness for C6: with `phy_set_mode` failing with -5, probe returns
-5 and the PHY trace is init → set-mode → exit with no power-off. -/
theorem claim_C6_witness :
    (probeEnvC6.kzalloc_pcie_ok = true ∧ probeEnvC6.kzalloc_pci_ok = true ∧
      probeEnvC6.port_prop_res = 0 ∧ probeEnvC6.port_value ≤ 1 ∧
      probeEnvC6.syscon_err = none ∧ probeEnvC6.clk_get_err = none ∧
      probeEnvC6.reset_get_axi_err = none ∧
      probeEnvC6.reset_get_power_err = none ∧
      probeEnvC6.reset_get_regs_err = none ∧
      (∀ d, probeEnvC6.reset_env.assert_res d = 0) ∧
      probeEnvC6.clk_enable_res = 0 ∧
      probeEnvC6.phy_get = PhyGet.present ∧
      probeEnvC6.phy_env.init_res = 0 ∧
      probeEnvC6.phy_env.set_mode_res = -5 ∧ (-5 : Int) ≠ 0) ∧
    ((ls1024a_pcie_probe probeEnvC6
        { axi_asserted := false, power_asserted := false,
          regs_asserted := false }).1 = -5 ∧
    (ls1024a_pcie_probe probeEnvC6
        { axi_asserted := false, power_asserted := false,
          regs_asserted := false }).2.1 =
      [PhyEvent.phy_init_call, PhyEvent.phy_set_mode_call,
        PhyEvent.phy_exit_call] ∧
    PhyEvent.phy_power_off_call ∉
      (ls1024a_pcie_probe probeEnvC6
        { axi_asserted := false, power_asserted := false,
          regs_asserted := false }).2.1) :=
  ⟨⟨rfl, rfl, rfl, by decide, rfl, rfl, rfl, rfl, rfl, fun d => rfl, rfl,
      rfl, rfl, rfl, by decide⟩,
    claim_C6 probeEnvC6
      { axi_asserted := false, power_asserted := false,
        regs_asserted := false } (-5)
      rfl rfl rfl (by decide) rfl rfl rfl rfl rfl (fun d => rfl) rfl rfl rfl
      rfl (by decide)⟩

end LS1024A
